import Mathlib

/-!
Shallow embedding of mezzanine/pages/middleware.py.

The file models the class PageMiddleware: its pre-view hook process_view
and its class method installed.  External collaborators (Django settings,
the ORM page lookup, the processor registry, urlquote, path_to_slug, the
dispatched view and the generic page view) are passed in through an
environment record, so process_view itself is the pure function embedded
from the source.  The result record carries, besides the returned value or
raised exception, the observable effects of a call: the page attribute
attached to the request, whether the page lookup ran, whether the original
view and the fallback page view were invoked, and the names of the
processors that were invoked, in order.
-/

namespace Mezzanine

/-- Django constant REDIRECT_FIELD_NAME, the query parameter carrying the
return path of a login redirect. -/
def REDIRECT_FIELD_NAME : String := "next"

/-- Dotted path of the required template context processor, the constant
cp in process_view. -/
def contextProcessorName : String := "mezzanine.pages.context_processors.page"

/-- Dotted path of the PageMiddleware class, the constant name in
installed. -/
def pageMiddlewareName : String := "mezzanine.pages.middleware.PageMiddleware"

/-- The slice of Django settings that middleware.py reads. -/
structure Settings where
  INSTALLED_APPS : List String
  TEMPLATE_CONTEXT_PROCESSORS : List String
  LOGIN_URL : String
  MIDDLEWARE_CLASSES : List String
deriving DecidableEq, Repr

/-- A page as middleware.py sees it: the four attributes it reads. -/
structure Page where
  slug : String
  login_required : Bool
  content_model : String
  is_current : Bool
deriving DecidableEq, Repr

/-- An incoming HTTP request: the fields middleware.py reads.  full_path
stands for request.get_full_path(). -/
structure Request where
  path_info : String
  full_path : String
  user_is_authenticated : Bool
deriving DecidableEq, Repr

/-- An HttpResponse.  context_data is the template context of a template
response; redirect_to is some url for a redirect response; body is an
opaque tag distinguishing otherwise equal responses. -/
structure Response (α : Type) where
  redirect_to : Option String
  context_data : List (String × α)
  body : Nat
deriving DecidableEq, Repr

/-- The redirect(...) shortcut: a redirect response to the given url. -/
def redirectResponse (url : String) : Response α :=
  { redirect_to := some url, context_data := [], body := 0 }

/-- Outcome of invoking a view callable: a response, or a raised Http404. -/
inductive ViewResult (α : Type) where
  | ok (r : Response α)
  | notFound
deriving DecidableEq

/-- A view callable: id models Python object identity, used by the source
comparison view_func != page_view; run is the call with its
view_args/view_kwargs already bound. -/
structure View (α : Type) where
  id : Nat
  run : Request → ViewResult α

/-- The dynamic value a page processor returns.
resp: an HttpResponse (handled first, regardless of truthiness).
mapping: a dict, as its key/value pairs; a dict is truthy iff non-empty.
falsy: any other Python-falsy value (None, False, 0, an empty string);
the elif branch skips it.  invalid: any truthy value that is neither an
HttpResponse nor a dict, for which the merge loop raises TypeError or
ValueError; the field records what str(type(value)) prints. -/
inductive ProcResult (α : Type) where
  | resp (r : Response α)
  | mapping (m : List (String × α))
  | falsy (tyName : String)
  | invalid (tyName : String)
deriving DecidableEq

/-- A registered page processor: name is its module-qualified name,
processor.__module__ + "." + processor.__name__. -/
structure Processor (α : Type) where
  name : String
  run : Request → Page → ProcResult α

/-- The exceptions middleware.py raises or propagates. -/
inductive Exc where
  | improperlyConfigured (msg : String)
  | http404
  | valueError (msg : String)
deriving DecidableEq, Repr

/-- What process_view gives back to the framework: None (noAction),
an HttpResponse, or a raised exception. -/
inductive Outcome (α : Type) where
  | noAction
  | response (r : Response α)
  | error (e : Exc)
deriving DecidableEq

/-- The external collaborators of process_view, bundled. with_ascendants_for_slug
is the ORM call Page.objects.with_ascendants_for_slug(slug, for_user=request.user,
include_login_required=True); page_view_id and page_view_run model the generic
page view's identity and its invocation page_view(request, slug, **view_kwargs);
processors is the page_processors.processors registry, mapping a key to its
ordered list of (processor, exact_page) pairs. -/
structure Env (α : Type) where
  settings : Settings
  path_to_slug : String → String
  urlquote : String → String
  with_ascendants_for_slug : String → Request → List Page
  page_view_id : Nat
  page_view_run : Request → String → ViewResult α
  processors : String → List (Processor α × Bool)

/-- Instrumented result of one process_view call.  outcome is what the
call returns or raises; the other fields record its observable effects. -/
structure PVResult (α : Type) where
  outcome : Outcome α
  page_attr : Option Page
  lookup_invoked : Bool
  view_invoked : Bool
  fallback_invoked : Bool
  processors_run : List String
deriving DecidableEq

/-- First value bound to key k in an association list, modelling dict
membership k in d and indexing d[k] on the template context. -/
def ctxLookup (k : String) : List (String × α) → Option α
  | [] => none
  | (k2, v) :: rest => if k = k2 then some v else ctxLookup k rest

/-- The merge loop of process_view: for k in m, if k not in ctx then
ctx[k] = m[k].  Keys already present keep their value; new keys are
appended in iteration order. -/
def mergeContext : List (String × α) → List (String × α) → List (String × α)
  | ctx, [] => ctx
  | ctx, (k, v) :: rest =>
      mergeContext (if (ctxLookup k ctx).isSome then ctx else ctx ++ [(k, v)]) rest

/-- The message of the ValueError raised for a malformed processor return
value: it names the offending processor. -/
def procErrorMsg (name tyName : String) : String :=
  "The page processor " ++ name ++ " returned " ++ tyName ++
    " but must return HttpResponse or dict."

/-- Record that processor n was invoked, in front of the trace of r. -/
def consName (n : String) (r : Except Exc (Response α) × List String) :
    Except Exc (Response α) × List String :=
  (r.1, n :: r.2)

/-- The processor loop of process_view, over the already concatenated list
slug_processors + model_processors.  Returns the response (or raised
exception) together with the names of the processors invoked, in order. -/
def runProcessors (request : Request) (page : Page) :
    List (Processor α × Bool) → Response α → Except Exc (Response α) × List String
  | [], resp => (Except.ok resp, [])
  | (p, exact) :: rest, resp =>
    if exact && !page.is_current then
      runProcessors request page rest resp
    else
      match p.run request page with
      | ProcResult.resp r => (Except.ok r, [p.name])
      | ProcResult.mapping m =>
          if m.isEmpty then
            consName p.name (runProcessors request page rest resp)
          else
            consName p.name (runProcessors request page rest
              { resp with context_data := mergeContext resp.context_data m })
      | ProcResult.falsy _ => consName p.name (runProcessors request page rest resp)
      | ProcResult.invalid ty =>
          (Except.error (Exc.valueError (procErrorMsg p.name ty)), [p.name])

/-- The tail of process_view once a response is in hand: run the page
processors and package the result.  fb records whether the response came
from the fallback page view. -/
def afterResponse (env : Env α) (request : Request) (page : Page)
    (resp : Response α) (fb : Bool) : PVResult α :=
  match runProcessors request page
      (env.processors ("slug:" ++ page.slug) ++ env.processors page.content_model)
      resp with
  | (Except.ok r, tr) =>
      { outcome := Outcome.response r, page_attr := some page,
        lookup_invoked := true, view_invoked := true,
        fallback_invoked := fb, processors_run := tr }
  | (Except.error e, tr) =>
      { outcome := Outcome.error e, page_attr := some page,
        lookup_invoked := true, view_invoked := true,
        fallback_invoked := fb, processors_run := tr }

/-- PageMiddleware.process_view, embedded from the source.  The branches,
in source order: the TEMPLATE_CONTEXT_PROCESSORS configuration check, slug
derivation and the page lookup, the early return when no page matches, the
login_required redirect, invoking the dispatched view with the Http404
fallback to the generic page view, and finally the processor loop. -/
def process_view (env : Env α) (request : Request) (view_func : View α) :
    PVResult α :=
  if contextProcessorName ∉ env.settings.TEMPLATE_CONTEXT_PROCESSORS then
    { outcome := Outcome.error (Exc.improperlyConfigured (contextProcessorName ++
        " is missing from settings.TEMPLATE_CONTEXT_PROCESSORS")),
      page_attr := none, lookup_invoked := false, view_invoked := false,
      fallback_invoked := false, processors_run := [] }
  else
    let slug := env.path_to_slug request.path_info
    match env.with_ascendants_for_slug slug request with
    | [] =>
        { outcome := Outcome.noAction, page_attr := none, lookup_invoked := true,
          view_invoked := false, fallback_invoked := false, processors_run := [] }
    | page :: _ =>
        if page.login_required && !request.user_is_authenticated then
          { outcome := Outcome.response (redirectResponse
              (env.settings.LOGIN_URL ++ "?" ++ REDIRECT_FIELD_NAME ++ "=" ++
                env.urlquote request.full_path)),
            page_attr := some page, lookup_invoked := true, view_invoked := false,
            fallback_invoked := false, processors_run := [] }
        else
          match view_func.run request with
          | ViewResult.ok resp => afterResponse env request page resp false
          | ViewResult.notFound =>
              if page.slug = slug ∧ view_func.id ≠ env.page_view_id ∧
                  page.content_model ≠ "link" then
                match env.page_view_run request slug with
                | ViewResult.ok resp => afterResponse env request page resp true
                | ViewResult.notFound =>
                    { outcome := Outcome.error Exc.http404, page_attr := some page,
                      lookup_invoked := true, view_invoked := true,
                      fallback_invoked := true, processors_run := [] }
              else
                { outcome := Outcome.error Exc.http404, page_attr := some page,
                  lookup_invoked := true, view_invoked := true,
                  fallback_invoked := false, processors_run := [] }

/-- How the framework uses process_view: a returned None (noAction) lets
the originally dispatched view execute unmodified; anything else replaces
it.  Models the Django middleware contract, an external collaborator. -/
def viewOutcome : ViewResult α → Outcome α
  | ViewResult.ok r => Outcome.response r
  | ViewResult.notFound => Outcome.error Exc.http404

/-- One request through the middleware and, when the middleware stands
aside, the original view. -/
def middleware_dispatch (env : Env α) (request : Request) (view_func : View α) :
    Outcome α :=
  match (process_view env request view_func).outcome with
  | Outcome.noAction => viewOutcome (view_func.run request)
  | o => o

/-- The body of PageMiddleware.installed on a cache miss: the short path
checks the dotted path of PageMiddleware in MIDDLEWARE_CLASSES; failing
that, each listed middleware class is loaded and tested as a subclass
(is_subclass models issubclass(import_dotted_path(name), cls)). -/
def installed_compute (settings : Settings) (is_subclass : String → Bool) : Bool :=
  if pageMiddlewareName ∈ settings.MIDDLEWARE_CLASSES then true
  else settings.MIDDLEWARE_CLASSES.any is_subclass

/-- Instrumented result of one installed() call: the returned value, the
cache attribute cls._installed afterwards, and whether this call ran the
computation. -/
structure InstalledCall where
  value : Bool
  cache : Option Bool
  computed : Bool
deriving DecidableEq, Repr

/-- PageMiddleware.installed, with the class attribute cls._installed made
an explicit cache argument: a hit returns the cached value untouched, a
miss computes, stores and returns. -/
def installed (cache : Option Bool) (settings : Settings)
    (is_subclass : String → Bool) : InstalledCall :=
  match cache with
  | some b => { value := b, cache := some b, computed := false }
  | none =>
      let b := installed_compute settings is_subclass
      { value := b, cache := some b, computed := true }

/-! Concrete fixtures used by witnesses and counterexamples. -/

/-- A published, current rich-text page. -/
def demoPage : Page :=
  { slug := "about", login_required := false, content_model := "richtextpage",
    is_current := true }

/-- A request for /about/ from an unauthenticated viewer. -/
def demoRequest : Request :=
  { path_info := "/about/", full_path := "/about/", user_is_authenticated := false }

/-- A correctly configured settings record. -/
def demoSettings : Settings :=
  { INSTALLED_APPS := ["mezzanine.pages"],
    TEMPLATE_CONTEXT_PROCESSORS := [contextProcessorName],
    LOGIN_URL := "/accounts/login/",
    MIDDLEWARE_CLASSES := [pageMiddlewareName] }

/-- A template response with one context key. -/
def demoResponse : Response Nat :=
  { redirect_to := none, context_data := [("page", 1)], body := 5 }

/-- A non-page view that returns demoResponse. -/
def demoView : View Nat :=
  { id := 7, run := fun _ => ViewResult.ok demoResponse }

/-- An environment resolving every path to demoPage, with empty processor
registry. -/
def demoEnv : Env Nat :=
  { settings := demoSettings,
    path_to_slug := fun _ => "about",
    urlquote := fun s => s,
    with_ascendants_for_slug := fun _ _ => [demoPage],
    page_view_id := 1,
    page_view_run := fun _ _ =>
      ViewResult.ok { redirect_to := none, context_data := [], body := 9 },
    processors := fun _ => [] }

/-- demoEnv with the required context processor removed from settings. -/
def badCfgEnv : Env Nat :=
  { demoEnv with settings :=
      { demoSettings with TEMPLATE_CONTEXT_PROCESSORS := [] } }

/-- demoEnv whose page lookup never matches. -/
def noPageEnv : Env Nat :=
  { demoEnv with with_ascendants_for_slug := fun _ _ => [] }

/-- A login-protected page. -/
def membersPage : Page :=
  { slug := "members", login_required := true, content_model := "richtextpage",
    is_current := true }

/-- demoEnv resolving every path to membersPage. -/
def membersEnv : Env Nat :=
  { demoEnv with
    path_to_slug := fun _ => "members",
    with_ascendants_for_slug := fun _ _ => [membersPage] }

/-- Python truthiness of a processor return value that did not
short-circuit: a dict is falsy iff empty; falsy stands for every other
falsy value. -/
def isFalsyRet : ProcResult α → Bool
  | ProcResult.mapping m => m.isEmpty
  | ProcResult.falsy _ => true
  | _ => false

/-- A loop entry that neither short-circuits nor raises: it is filtered
out, or its callable returns a dict or a falsy value. -/
def NonTerminating (request : Request) (page : Page)
    (e : Processor α × Bool) : Prop :=
  (e.2 && !page.is_current) = true ∨
  (∃ m, e.1.run request page = ProcResult.mapping m) ∨
  (∃ ty, e.1.run request page = ProcResult.falsy ty)

/-- The names of the entries of l that survive the exact_page filter, in
list order: exactly the processors the loop invokes when none of them
terminates it. -/
def invokedNames (page : Page) (l : List (Processor α × Bool)) : List String :=
  (l.filter (fun e => !(e.2 && !page.is_current))).map (fun e => e.1.name)

/-- A processor always returning None. -/
def noneProcessor : Processor Nat :=
  { name := "myapp.page_processors.none_proc",
    run := fun _ _ => ProcResult.falsy "NoneType" }

/-- A processor that short-circuits with a fixed substitute response. -/
def shortCircuitProcessor : Processor Nat :=
  { name := "myapp.page_processors.short_circuit",
    run := fun _ _ =>
      ProcResult.resp { redirect_to := none, context_data := [], body := 42 } }

/-- A processor returning a truthy non-dict, non-response value (a
non-empty list, say). -/
def badProcessor : Processor Nat :=
  { name := "myapp.page_processors.bad_proc",
    run := fun _ _ => ProcResult.invalid "list" }

/-- demoPage marked as not the current page. -/
def staleAboutPage : Page :=
  { slug := "about", login_required := false, content_model := "richtextpage",
    is_current := false }

/-- demoEnv resolving to the non-current page, with one flagged processor
registered under its slug key. -/
def staleEnv : Env Nat :=
  { demoEnv with
    with_ascendants_for_slug := fun _ _ => [staleAboutPage],
    processors := fun key =>
      if key = "slug:about" then [(noneProcessor, true)] else [] }

/-- demoEnv with the short-circuiting processor registered under the slug
key of demoPage. -/
def shortCircuitEnv : Env Nat :=
  { demoEnv with
    processors := fun key =>
      if key = "slug:about" then [(shortCircuitProcessor, false)] else [] }

/-- demoEnv with the malformed processor registered under demoPage's
content-model key. -/
def badProcEnv : Env Nat :=
  { demoEnv with
    processors := fun key =>
      if key = "richtextpage" then [(badProcessor, false)] else [] }

/-- demoEnv with the None-returning processor registered under demoPage's
content-model key. -/
def noneProcEnv : Env Nat :=
  { demoEnv with
    processors := fun key =>
      if key = "richtextpage" then [(noneProcessor, false)] else [] }

/-- A non-page view that always raises Http404. -/
def view404 : View Nat :=
  { id := 7, run := fun _ => ViewResult.notFound }

/-- Claim C7: when the required page context processor is missing from the
configured template context processors, process_view raises
ImproperlyConfigured immediately: no page lookup runs, no page attribute is
attached, no view is invoked, no processor runs. -/
theorem missing_context_processor_fatal (env : Env α) (request : Request)
    (view_func : View α)
    (h : contextProcessorName ∉ env.settings.TEMPLATE_CONTEXT_PROCESSORS) :
    process_view env request view_func =
      { outcome := Outcome.error (Exc.improperlyConfigured (contextProcessorName ++
          " is missing from settings.TEMPLATE_CONTEXT_PROCESSORS")),
        page_attr := none, lookup_invoked := false, view_invoked := false,
        fallback_invoked := false, processors_run := [] } := by
  simp [process_view, h]

/-- Claim C7 witness: the configuration error at a concrete environment
whose template context processor list is empty. -/
theorem missing_context_processor_fatal_witness :
    contextProcessorName ∉ badCfgEnv.settings.TEMPLATE_CONTEXT_PROCESSORS ∧
    process_view badCfgEnv demoRequest demoView =
      { outcome := Outcome.error (Exc.improperlyConfigured (contextProcessorName ++
          " is missing from settings.TEMPLATE_CONTEXT_PROCESSORS")),
        page_attr := none, lookup_invoked := false, view_invoked := false,
        fallback_invoked := false, processors_run := [] } :=
  ⟨by decide, missing_context_processor_fatal badCfgEnv demoRequest demoView
    (by decide)⟩

/-- Claim C5: when the derived slug matches no page, process_view takes no
further action: noAction is returned, no page attribute is attached, the
view is not invoked by the middleware, no processor runs, and the
dispatched result is exactly the original view's own result. -/
theorem no_page_no_action (env : Env α) (request : Request) (view_func : View α)
    (hcp : contextProcessorName ∈ env.settings.TEMPLATE_CONTEXT_PROCESSORS)
    (hpages : env.with_ascendants_for_slug (env.path_to_slug request.path_info)
      request = []) :
    process_view env request view_func =
      { outcome := Outcome.noAction, page_attr := none, lookup_invoked := true,
        view_invoked := false, fallback_invoked := false, processors_run := [] } ∧
    middleware_dispatch env request view_func = viewOutcome (view_func.run request) := by
  have h1 : process_view env request view_func =
      { outcome := Outcome.noAction, page_attr := none, lookup_invoked := true,
        view_invoked := false, fallback_invoked := false, processors_run := [] } := by
    simp [process_view, hcp, hpages]
  refine ⟨h1, ?_⟩
  simp [middleware_dispatch, h1]

/-- Claim C5 witness: the no-match behaviour at a concrete environment
whose lookup returns no page. -/
theorem no_page_no_action_witness :
    process_view noPageEnv demoRequest demoView =
      { outcome := Outcome.noAction, page_attr := none, lookup_invoked := true,
        view_invoked := false, fallback_invoked := false, processors_run := [] } ∧
    middleware_dispatch noPageEnv demoRequest demoView =
      viewOutcome (demoView.run demoRequest) :=
  no_page_no_action noPageEnv demoRequest demoView (by decide) rfl

/-- Claim C2: when the resolved page requires login and the viewer is
unauthenticated, process_view returns a redirect to the configured login
URL whose query string carries the quoted original path under the redirect
field name, and the dispatched view is never invoked. -/
theorem login_required_redirect (env : Env α) (request : Request)
    (view_func : View α)
    (hcp : contextProcessorName ∈ env.settings.TEMPLATE_CONTEXT_PROCESSORS)
    (page : Page) (rest : List Page)
    (hpages : env.with_ascendants_for_slug (env.path_to_slug request.path_info)
      request = page :: rest)
    (hlr : page.login_required = true)
    (hauth : request.user_is_authenticated = false) :
    process_view env request view_func =
      { outcome := Outcome.response (redirectResponse
          (env.settings.LOGIN_URL ++ "?" ++ REDIRECT_FIELD_NAME ++ "=" ++
            env.urlquote request.full_path)),
        page_attr := some page, lookup_invoked := true, view_invoked := false,
        fallback_invoked := false, processors_run := [] } := by
  simp [process_view, hcp, hpages, hlr, hauth]

/-- Claim C2 witness: the login redirect at a concrete login-protected
page and unauthenticated request. -/
theorem login_required_redirect_witness :
    process_view membersEnv demoRequest demoView =
      { outcome := Outcome.response (redirectResponse
          (membersEnv.settings.LOGIN_URL ++ "?" ++ REDIRECT_FIELD_NAME ++ "=" ++
            membersEnv.urlquote demoRequest.full_path)),
        page_attr := some membersPage, lookup_invoked := true,
        view_invoked := false, fallback_invoked := false, processors_run := [] } :=
  login_required_redirect membersEnv demoRequest demoView (by decide)
    membersPage [] rfl rfl rfl

/-- Claim C8: installed computes the installed boolean at most once: the
first call (empty cache) computes and stores it, and a second call, under
possibly different settings and middleware classes, returns the cached
value without recomputation. -/
theorem installed_computed_once (s1 s2 : Settings) (f1 f2 : String → Bool) :
    (installed none s1 f1).computed = true ∧
    (installed none s1 f1).cache = some (installed none s1 f1).value ∧
    (installed (installed none s1 f1).cache s2 f2).value =
      (installed none s1 f1).value ∧
    (installed (installed none s1 f1).cache s2 f2).computed = false ∧
    (installed (installed none s1 f1).cache s2 f2).cache =
      (installed none s1 f1).cache := by
  simp [installed]

/-- Looking a key up in a concatenation: the left list wins. -/
theorem ctxLookup_append (k : String) (l1 l2 : List (String × α)) :
    ctxLookup k (l1 ++ l2) =
      match ctxLookup k l1 with
      | some v => some v
      | none => ctxLookup k l2 := by
  induction l1 with
  | nil => simp [ctxLookup]
  | cons hd tl ih =>
    obtain ⟨k2, v2⟩ := hd
    by_cases h : k = k2 <;> simp [ctxLookup, h, ih]

/-- A key already bound on the left keeps its binding after appending. -/
theorem ctxLookup_append_left (k : String) (l1 l2 : List (String × α))
    (h : (ctxLookup k l1).isSome) : ctxLookup k (l1 ++ l2) = ctxLookup k l1 := by
  obtain ⟨v, hv⟩ := Option.isSome_iff_exists.mp h
  rw [ctxLookup_append, hv]

/-- A key is bound iff some pair with that key is in the list. -/
theorem ctxLookup_isSome_iff (k : String) (m : List (String × α)) :
    (ctxLookup k m).isSome ↔ ∃ v, (k, v) ∈ m := by
  induction m with
  | nil => simp [ctxLookup]
  | cons hd tl ih =>
    obtain ⟨k2, v2⟩ := hd
    by_cases h : k = k2
    · subst h
      simp [ctxLookup]
    · simp only [ctxLookup, if_neg h, ih, List.mem_cons, Prod.mk.injEq]
      constructor
      · rintro ⟨v, hv⟩
        exact ⟨v, Or.inr hv⟩
      · rintro ⟨v, ⟨hk, _⟩ | hv⟩
        · exact absurd hk h
        · exact ⟨v, hv⟩

/-- A key bound before the merge keeps its value through the merge. -/
theorem mergeContext_preserves (ctx m : List (String × α)) (k : String)
    (h : (ctxLookup k ctx).isSome) :
    ctxLookup k (mergeContext ctx m) = ctxLookup k ctx := by
  induction m generalizing ctx with
  | nil => rfl
  | cons hd tl ih =>
    obtain ⟨k2, v2⟩ := hd
    simp only [mergeContext]
    by_cases h2 : (ctxLookup k2 ctx).isSome
    · rw [if_pos h2]
      exact ih ctx h
    · rw [if_neg h2]
      have happ : ctxLookup k (ctx ++ [(k2, v2)]) = ctxLookup k ctx :=
        ctxLookup_append_left k ctx [(k2, v2)] h
      rw [ih (ctx ++ [(k2, v2)]) (by rw [happ]; exact h), happ]

/-- A key is bound after the merge iff it was bound before or the merged
mapping binds it. -/
theorem mergeContext_isSome_iff (ctx m : List (String × α)) (k : String) :
    (ctxLookup k (mergeContext ctx m)).isSome ↔
      (ctxLookup k ctx).isSome ∨ (ctxLookup k m).isSome := by
  induction m generalizing ctx with
  | nil => simp [mergeContext, ctxLookup]
  | cons hd tl ih =>
    obtain ⟨k2, v2⟩ := hd
    simp only [mergeContext]
    by_cases h2 : (ctxLookup k2 ctx).isSome
    · rw [if_pos h2, ih]
      by_cases hk : k = k2
      · subst hk
        simp [ctxLookup, h2]
      · simp [ctxLookup, hk]
    · rw [if_neg h2, ih]
      rw [ctxLookup_append]
      by_cases hk : k = k2
      · subst hk
        cases hc : ctxLookup k ctx with
        | some v => simp [hc]
        | none => simp [hc, ctxLookup]
      · cases hc : ctxLookup k ctx with
        | some v => simp [hc, ctxLookup, hk]
        | none => simp [hc, ctxLookup, hk]

/-- Claim C4: merging a processor's mapping into the template context adds
exactly the keys not already present, and the value bound to a key already
present is left unchanged. -/
theorem mergeContext_adds_only_missing (ctx m : List (String × α)) (k : String) :
    ((ctxLookup k ctx).isSome →
      ctxLookup k (mergeContext ctx m) = ctxLookup k ctx) ∧
    ((ctxLookup k (mergeContext ctx m)).isSome ↔
      (ctxLookup k ctx).isSome ∨ ∃ v, (k, v) ∈ m) := by
  refine ⟨fun h => mergeContext_preserves ctx m k h, ?_⟩
  rw [mergeContext_isSome_iff]
  simp [ctxLookup_isSome_iff]

/-- Claim C4 witness: merging a mapping that collides on key a and adds
key c: a keeps its value 1, b is untouched, c is added. -/
theorem mergeContext_adds_only_missing_witness :
    ((ctxLookup "a" [("a", 1), ("b", 2)]).isSome →
      ctxLookup "a" (mergeContext [("a", 1), ("b", 2)] [("a", 9), ("c", 3)]) =
        ctxLookup "a" [("a", 1), ("b", 2)]) ∧
    ((ctxLookup "a" (mergeContext [("a", 1), ("b", 2)] [("a", 9), ("c", 3)])).isSome ↔
      (ctxLookup "a" [("a", 1), ("b", 2)]).isSome ∨
        ∃ v, ("a", v) ∈ [("a", 9), ("c", 3)]) :=
  mergeContext_adds_only_missing [("a", 1), ("b", 2)] [("a", 9), ("c", 3)] "a"

/-- Claim C9: a processor returning a falsy value (None, an empty mapping,
False, zero) is silently skipped: no error is raised, the response and its
template context pass through unchanged, and the loop continues with the
next processor; only the trace records the invocation. -/
theorem falsy_processor_skipped (request : Request) (page : Page)
    (p : Processor α) (exact_page : Bool) (rest : List (Processor α × Bool))
    (resp : Response α)
    (hrun : (exact_page && !page.is_current) = false)
    (hfalsy : isFalsyRet (p.run request page) = true) :
    runProcessors request page ((p, exact_page) :: rest) resp =
      consName p.name (runProcessors request page rest resp) := by
  simp only [runProcessors, hrun, Bool.false_eq_true, if_false]
  cases hp : p.run request page with
  | resp r => rw [hp] at hfalsy; simp [isFalsyRet] at hfalsy
  | mapping m =>
      rw [hp] at hfalsy
      simp only [isFalsyRet] at hfalsy
      simp [hfalsy]
  | falsy ty => rfl
  | invalid ty => rw [hp] at hfalsy; simp [isFalsyRet] at hfalsy

/-- Claim C9 witness: the None-returning processor at a concrete call:
the loop result is exactly the rest of the loop, with the invocation
traced. -/
theorem falsy_processor_skipped_witness :
    runProcessors demoRequest demoPage [(noneProcessor, false)] demoResponse =
      consName noneProcessor.name
        (runProcessors demoRequest demoPage [] demoResponse) :=
  falsy_processor_skipped demoRequest demoPage noneProcessor false []
    demoResponse rfl rfl

/-- Claim C10: the exact_page filter is uniform over the whole loop.
Whatever its position in the concatenation of the slug-keyed and the
content-model-keyed lists, an entry whose exact_page flag is set is skipped
when the resolved page is not current: the loop behaves exactly as if the
entry were absent, its callable is never consulted and it never shows in
the trace. -/
theorem exact_page_filter_uniform (env : Env α) (request : Request) (page : Page)
    (hcur : page.is_current = false)
    (e : Processor α × Bool) (he : e.2 = true)
    (l1 l2 : List (Processor α × Bool)) (resp : Response α)
    (hdecomp : env.processors ("slug:" ++ page.slug) ++
      env.processors page.content_model = l1 ++ e :: l2) :
    runProcessors request page
        (env.processors ("slug:" ++ page.slug) ++ env.processors page.content_model)
        resp =
      runProcessors request page (l1 ++ l2) resp := by
  rw [hdecomp]
  clear hdecomp
  induction l1 generalizing resp with
  | nil =>
      obtain ⟨p, ex⟩ := e
      simp only at he
      subst he
      simp [runProcessors, hcur]
  | cons hd tl ih =>
      obtain ⟨p, ex⟩ := hd
      simp only [List.cons_append, runProcessors]
      by_cases hex : (ex && !page.is_current) = true
      · simp [hex, ih]
      · simp only [hex, if_false]
        cases hrun : p.run request page with
        | resp r => rfl
        | mapping m =>
            by_cases hm : m.isEmpty <;> simp [hm, consName, ih]
        | falsy ty => simp [consName, ih]
        | invalid ty => rfl

/-- Claim C10 witness: a flagged processor registered under the slug key
of a non-current page is skipped entirely. -/
theorem exact_page_filter_uniform_witness :
    runProcessors demoRequest staleAboutPage
        (staleEnv.processors ("slug:" ++ staleAboutPage.slug) ++
          staleEnv.processors staleAboutPage.content_model)
        demoResponse =
      runProcessors demoRequest staleAboutPage ([] ++ []) demoResponse :=
  exact_page_filter_uniform staleEnv demoRequest staleAboutPage rfl
    (noneProcessor, true) rfl [] [] demoResponse rfl

/-- A filtered-out entry contributes no invoked name. -/
theorem invokedNames_cons_skip (page : Page) (p : Processor α) (ex : Bool)
    (tl : List (Processor α × Bool)) (h : (ex && !page.is_current) = true) :
    invokedNames page ((p, ex) :: tl) = invokedNames page tl := by
  simp only [invokedNames, List.filter_cons, h]
  rfl

/-- A surviving entry contributes its name first. -/
theorem invokedNames_cons_run (page : Page) (p : Processor α) (ex : Bool)
    (tl : List (Processor α × Bool)) (h : (ex && !page.is_current) = false) :
    invokedNames page ((p, ex) :: tl) = p.name :: invokedNames page tl := by
  simp only [invokedNames, List.filter_cons, h]
  rfl

/-- Loop step: a filtered-out entry is skipped outright. -/
theorem runProcessors_cons_skip (request : Request) (page : Page)
    (p : Processor α) (ex : Bool) (rest : List (Processor α × Bool))
    (resp : Response α) (h : (ex && !page.is_current) = true) :
    runProcessors request page ((p, ex) :: rest) resp =
      runProcessors request page rest resp := by
  simp [runProcessors, h]

/-- Loop step: an invoked entry returning a response short-circuits. -/
theorem runProcessors_cons_resp (request : Request) (page : Page)
    (p : Processor α) (ex : Bool) (rest : List (Processor α × Bool))
    (resp : Response α) (h : (ex && !page.is_current) = false)
    (r : Response α) (hres : p.run request page = ProcResult.resp r) :
    runProcessors request page ((p, ex) :: rest) resp =
      (Except.ok r, [p.name]) := by
  simp [runProcessors, h, hres]

/-- Loop step: an invoked entry returning a dict merges it (an empty dict,
being falsy, merges nothing) and the loop continues. -/
theorem runProcessors_cons_mapping (request : Request) (page : Page)
    (p : Processor α) (ex : Bool) (rest : List (Processor α × Bool))
    (resp : Response α) (h : (ex && !page.is_current) = false)
    (m : List (String × α)) (hm : p.run request page = ProcResult.mapping m) :
    runProcessors request page ((p, ex) :: rest) resp =
      consName p.name (runProcessors request page rest
        (if m.isEmpty then resp
         else { resp with context_data := mergeContext resp.context_data m })) := by
  by_cases hemp : m.isEmpty <;> simp [runProcessors, h, hm, hemp]

/-- Loop step: an invoked entry returning another falsy value is passed
over. -/
theorem runProcessors_cons_falsy (request : Request) (page : Page)
    (p : Processor α) (ex : Bool) (rest : List (Processor α × Bool))
    (resp : Response α) (h : (ex && !page.is_current) = false)
    (ty : String) (hty : p.run request page = ProcResult.falsy ty) :
    runProcessors request page ((p, ex) :: rest) resp =
      consName p.name (runProcessors request page rest resp) := by
  simp [runProcessors, h, hty]

/-- Loop step: an invoked entry returning a truthy non-dict, non-response
value raises the descriptive ValueError. -/
theorem runProcessors_cons_invalid (request : Request) (page : Page)
    (p : Processor α) (ex : Bool) (rest : List (Processor α × Bool))
    (resp : Response α) (h : (ex && !page.is_current) = false)
    (ty : String) (hty : p.run request page = ProcResult.invalid ty) :
    runProcessors request page ((p, ex) :: rest) resp =
      (Except.error (Exc.valueError (procErrorMsg p.name ty)), [p.name]) := by
  simp [runProcessors, h, hty]

/-- Running the loop past a non-terminating segment: the result is the
result of the remainder on some intermediate response, and the trace is
the names of the invoked segment entries followed by the remainder's
trace. -/
theorem runProcessors_nonterm_append (request : Request) (page : Page)
    (l1 l : List (Processor α × Bool))
    (h : ∀ e ∈ l1, NonTerminating request page e) (resp : Response α) :
    ∃ resp2, runProcessors request page (l1 ++ l) resp =
      ((runProcessors request page l resp2).1,
        invokedNames page l1 ++ (runProcessors request page l resp2).2) := by
  induction l1 generalizing resp with
  | nil => exact ⟨resp, by simp [invokedNames]⟩
  | cons hd tl ih =>
      obtain ⟨p, ex⟩ := hd
      have hhd : NonTerminating request page (p, ex) := h _ (List.mem_cons_self _ _)
      have htl : ∀ e ∈ tl, NonTerminating request page e :=
        fun e he => h e (List.mem_cons_of_mem _ he)
      by_cases hskip : (ex && !page.is_current) = true
      · obtain ⟨resp2, hr⟩ := ih htl resp
        refine ⟨resp2, ?_⟩
        rw [List.cons_append, runProcessors_cons_skip request page p ex _ resp hskip,
          invokedNames_cons_skip page p ex tl hskip]
        exact hr
      · have hns : (ex && !page.is_current) = false :=
          Bool.not_eq_true _ ▸ Bool.of_not_eq_true hskip
        rcases hhd with hsk | ⟨m, hm⟩ | ⟨ty, hty⟩
        · exact absurd hsk hskip
        · have hm2 : p.run request page = ProcResult.mapping m := hm
          obtain ⟨resp2, hr⟩ := ih htl
            (if m.isEmpty then resp
             else { resp with context_data := mergeContext resp.context_data m })
          refine ⟨resp2, ?_⟩
          rw [List.cons_append,
            runProcessors_cons_mapping request page p ex _ resp hns m hm2, hr,
            invokedNames_cons_run page p ex tl hns]
          simp [consName]
        · have hty2 : p.run request page = ProcResult.falsy ty := hty
          obtain ⟨resp2, hr⟩ := ih htl resp
          refine ⟨resp2, ?_⟩
          rw [List.cons_append,
            runProcessors_cons_falsy request page p ex _ resp hns ty hty2, hr,
            invokedNames_cons_run page p ex tl hns]
          simp [consName]

/-- Claim C6: with a response in hand, the loop runs the slug-keyed
processors before the content-model-keyed ones, and the first invoked
processor that returns an HttpResponse short-circuits: its response is
returned at once, the trace ends at its name, and nothing after it in
either list runs. -/
theorem processor_short_circuit (env : Env α) (request : Request)
    (view_func : View α)
    (hcp : contextProcessorName ∈ env.settings.TEMPLATE_CONTEXT_PROCESSORS)
    (page : Page) (rest : List Page)
    (hpages : env.with_ascendants_for_slug (env.path_to_slug request.path_info)
      request = page :: rest)
    (hlogin : (page.login_required && !request.user_is_authenticated) = false)
    (resp : Response α) (hview : view_func.run request = ViewResult.ok resp)
    (l1 l2 : List (Processor α × Bool)) (p : Processor α) (exact_page : Bool)
    (hdecomp : env.processors ("slug:" ++ page.slug) ++
      env.processors page.content_model = l1 ++ (p, exact_page) :: l2)
    (hl1 : ∀ e ∈ l1, NonTerminating request page e)
    (hnoskip : (exact_page && !page.is_current) = false)
    (r : Response α) (hshort : p.run request page = ProcResult.resp r) :
    process_view env request view_func =
      { outcome := Outcome.response r, page_attr := some page,
        lookup_invoked := true, view_invoked := true, fallback_invoked := false,
        processors_run := invokedNames page l1 ++ [p.name] } := by
  have hpv : process_view env request view_func =
      afterResponse env request page resp false := by
    simp [process_view, hcp, hpages, hlogin, hview]
  rw [hpv]
  unfold afterResponse
  rw [hdecomp]
  obtain ⟨resp2, hr⟩ :=
    runProcessors_nonterm_append request page l1 ((p, exact_page) :: l2) hl1 resp
  rw [hr]
  have hstep : runProcessors request page ((p, exact_page) :: l2) resp2 =
      (Except.ok r, [p.name]) := by
    simp [runProcessors, hnoskip, hshort]
  rw [hstep]

/-- Claim C6 witness: a slug-keyed processor substituting its own response
at a concrete environment: that response is returned and the trace is just
that processor. -/
theorem processor_short_circuit_witness :
    process_view shortCircuitEnv demoRequest demoView =
      { outcome := Outcome.response
          { redirect_to := none, context_data := [], body := 42 },
        page_attr := some demoPage, lookup_invoked := true, view_invoked := true,
        fallback_invoked := false,
        processors_run := invokedNames demoPage ([] : List (Processor Nat × Bool)) ++
          [shortCircuitProcessor.name] } :=
  processor_short_circuit shortCircuitEnv demoRequest demoView (by decide)
    demoPage [] rfl rfl demoResponse rfl [] [] shortCircuitProcessor false
    rfl (fun e he => absurd he (List.not_mem_nil e)) rfl
    { redirect_to := none, context_data := [], body := 42 } rfl

/-- Claim C3 counterexample: a processor returning None, a value that is
neither an HttpResponse nor a mapping, is invoked during process_view and
yet no error is raised: the view's own response comes back. -/
theorem none_processor_raises_nothing :
    noneProcessor.run demoRequest demoPage = ProcResult.falsy "NoneType" ∧
    noneProcessor.name ∈
      (process_view noneProcEnv demoRequest demoView).processors_run ∧
    (process_view noneProcEnv demoRequest demoView).outcome =
      Outcome.response demoResponse := by
  refine ⟨rfl, ?_, ?_⟩ <;> decide

/-- Claim C3 (amended): for every processor invoked during process_view
whose return value is truthy and neither an HttpResponse nor a mapping,
a ValueError is raised whose message names the processor's
module-qualified name. -/
theorem invalid_processor_raises (env : Env α) (request : Request)
    (view_func : View α)
    (hcp : contextProcessorName ∈ env.settings.TEMPLATE_CONTEXT_PROCESSORS)
    (page : Page) (rest : List Page)
    (hpages : env.with_ascendants_for_slug (env.path_to_slug request.path_info)
      request = page :: rest)
    (hlogin : (page.login_required && !request.user_is_authenticated) = false)
    (resp : Response α) (hview : view_func.run request = ViewResult.ok resp)
    (l1 l2 : List (Processor α × Bool)) (p : Processor α) (exact_page : Bool)
    (hdecomp : env.processors ("slug:" ++ page.slug) ++
      env.processors page.content_model = l1 ++ (p, exact_page) :: l2)
    (hl1 : ∀ e ∈ l1, NonTerminating request page e)
    (hnoskip : (exact_page && !page.is_current) = false)
    (ty : String) (hinv : p.run request page = ProcResult.invalid ty) :
    process_view env request view_func =
      { outcome := Outcome.error (Exc.valueError (procErrorMsg p.name ty)),
        page_attr := some page, lookup_invoked := true, view_invoked := true,
        fallback_invoked := false,
        processors_run := invokedNames page l1 ++ [p.name] } := by
  have hpv : process_view env request view_func =
      afterResponse env request page resp false := by
    simp [process_view, hcp, hpages, hlogin, hview]
  rw [hpv]
  unfold afterResponse
  rw [hdecomp]
  obtain ⟨resp2, hr⟩ :=
    runProcessors_nonterm_append request page l1 ((p, exact_page) :: l2) hl1 resp
  rw [hr, runProcessors_cons_invalid request page p exact_page l2 resp2 hnoskip
    ty hinv]

/-- Claim C3 (amended) witness: a processor returning a non-empty list at
a concrete environment: process_view raises the ValueError naming it. -/
theorem invalid_processor_raises_witness :
    process_view badProcEnv demoRequest demoView =
      { outcome := Outcome.error (Exc.valueError
          (procErrorMsg badProcessor.name "list")),
        page_attr := some demoPage, lookup_invoked := true, view_invoked := true,
        fallback_invoked := false,
        processors_run := invokedNames demoPage ([] : List (Processor Nat × Bool)) ++
          [badProcessor.name] } :=
  invalid_processor_raises badProcEnv demoRequest demoView (by decide)
    demoPage [] rfl rfl demoResponse rfl [] [] badProcessor false
    rfl (fun e he => absurd he (List.not_mem_nil e)) rfl "list" rfl

/-- Reduction of process_view in the branch where the dispatched view has
raised Http404. -/
theorem process_view_notFound_eq (env : Env α) (request : Request)
    (view_func : View α)
    (hcp : contextProcessorName ∈ env.settings.TEMPLATE_CONTEXT_PROCESSORS)
    (page : Page) (rest : List Page)
    (hpages : env.with_ascendants_for_slug (env.path_to_slug request.path_info)
      request = page :: rest)
    (hlogin : (page.login_required && !request.user_is_authenticated) = false)
    (h404 : view_func.run request = ViewResult.notFound) :
    process_view env request view_func =
      if page.slug = env.path_to_slug request.path_info ∧
          view_func.id ≠ env.page_view_id ∧ page.content_model ≠ "link" then
        match env.page_view_run request (env.path_to_slug request.path_info) with
        | ViewResult.ok resp => afterResponse env request page resp true
        | ViewResult.notFound =>
            { outcome := Outcome.error Exc.http404, page_attr := some page,
              lookup_invoked := true, view_invoked := true,
              fallback_invoked := true, processors_run := [] }
      else
        { outcome := Outcome.error Exc.http404, page_attr := some page,
          lookup_invoked := true, view_invoked := true,
          fallback_invoked := false, processors_run := [] } := by
  simp [process_view, hcp, hpages, hlogin, h404]

/-- Whatever the processors do, afterResponse reports the given fallback
flag. -/
theorem afterResponse_fallback (env : Env α) (request : Request) (page : Page)
    (resp : Response α) (fb : Bool) :
    (afterResponse env request page resp fb).fallback_invoked = fb := by
  unfold afterResponse
  split <;> rfl

/-- Claim C1: when the dispatched view raises Http404, process_view
invokes the generic page view with the derived slug in place of re-raising
exactly when the resolved page's slug equals the derived slug, the
dispatched view is not the generic page view, and the page's content model
is not link; in every other case the Http404 is re-raised. -/
theorem http404_fallback_iff (env : Env α) (request : Request)
    (view_func : View α)
    (hcp : contextProcessorName ∈ env.settings.TEMPLATE_CONTEXT_PROCESSORS)
    (page : Page) (rest : List Page)
    (hpages : env.with_ascendants_for_slug (env.path_to_slug request.path_info)
      request = page :: rest)
    (hlogin : (page.login_required && !request.user_is_authenticated) = false)
    (h404 : view_func.run request = ViewResult.notFound) :
    ((process_view env request view_func).fallback_invoked = true ↔
      (page.slug = env.path_to_slug request.path_info ∧
        view_func.id ≠ env.page_view_id ∧ page.content_model ≠ "link")) ∧
    ((page.slug = env.path_to_slug request.path_info ∧
        view_func.id ≠ env.page_view_id ∧ page.content_model ≠ "link") →
      ∀ r, env.page_view_run request (env.path_to_slug request.path_info) =
          ViewResult.ok r →
        process_view env request view_func = afterResponse env request page r true) ∧
    (¬(page.slug = env.path_to_slug request.path_info ∧
        view_func.id ≠ env.page_view_id ∧ page.content_model ≠ "link") →
      process_view env request view_func =
        { outcome := Outcome.error Exc.http404, page_attr := some page,
          lookup_invoked := true, view_invoked := true,
          fallback_invoked := false, processors_run := [] }) := by
  have hred := process_view_notFound_eq env request view_func hcp page rest
    hpages hlogin h404
  by_cases hC : page.slug = env.path_to_slug request.path_info ∧
      view_func.id ≠ env.page_view_id ∧ page.content_model ≠ "link"
  · rw [if_pos hC] at hred
    refine ⟨?_, fun _ r hr => ?_, fun hnC => absurd hC hnC⟩
    · cases hpv : env.page_view_run request (env.path_to_slug request.path_info) with
      | ok r =>
          rw [hpv] at hred
          rw [hred, afterResponse_fallback]
          exact ⟨fun _ => hC, fun _ => rfl⟩
      | notFound =>
          rw [hpv] at hred
          rw [hred]
          exact ⟨fun _ => hC, fun _ => rfl⟩
    · rw [hr] at hred
      exact hred
  · rw [if_neg hC] at hred
    refine ⟨?_, fun hC2 => absurd hC2 hC, fun _ => hred⟩
    rw [hred]
    simp only [hC, iff_false]
    exact fun h => Bool.false_ne_true h

/-- Claim C1 witness: a non-page view raising Http404 on a URL whose slug
matches a non-link page: the fallback page view is invoked. -/
theorem http404_fallback_iff_witness :
    (process_view demoEnv demoRequest view404).fallback_invoked = true :=
  (http404_fallback_iff demoEnv demoRequest view404 (by decide) demoPage []
    rfl rfl rfl).1.mpr ⟨rfl, by decide, by decide⟩

end Mezzanine
